import Mathlib

/-
Shallow embedding of src/lib/oidc-client.js (OidcClient).

Modelling conventions:
- JavaScript values that flow through JSON.parse or claim objects are modelled
  by the inductive JsValue.  Object property access yields Option JsValue where
  none models the JavaScript value undefined.
- JavaScript truthiness is modelled by the jsTruthy* functions.
- Strict equality (===) between values that come from distinct JSON parses is
  modelled by jsStrictEqV; for objects and arrays it is reference equality in
  JavaScript and the operands here always come from distinct parses, so it is
  modelled as false.
- Numbers are modelled as Int (the token timestamps and all values the claims
  mention are integers); NaN is modelled as the none case of Option Int.
- A rejected promise produced through the local error(message) helper is
  JsOutcome.err; a synchronously thrown exception is JsOutcome.thrown; both are
  distinct from a resolved value JsOutcome.ok.
- External collaborators (network fetches, JWS signature check, SHA-256,
  the random generator) are passed as explicit parameters, matching the
  capability interfaces that the client consumes.
-/

inductive JsValue : Type where
  | null : JsValue
  | bool (b : Bool) : JsValue
  | num (n : Int) : JsValue
  | str (s : String) : JsValue
  | arr (xs : List JsValue) : JsValue
  | obj (fields : List (String × JsValue)) : JsValue

/-- JavaScript truthiness of a JsValue. -/
def jsTruthyV : JsValue → Bool
  | .null => false
  | .bool b => b
  | .num n => n != 0
  | .str s => !s.isEmpty
  | .arr _ => true
  | .obj _ => true

/-- Truthiness of a possibly-undefined value (none models undefined). -/
def jsTruthyOV : Option JsValue → Bool
  | some v => jsTruthyV v
  | none => false

/-- Truthiness of a possibly-undefined string. -/
def jsTruthyOS : Option String → Bool
  | some s => !s.isEmpty
  | none => false

/-- Truthiness of a possibly-undefined boolean. -/
def jsTruthyOB : Option Bool → Bool
  | some b => b
  | none => false

/-- Strict equality (===) on primitive JsValues.  Objects and arrays compare by
reference in JavaScript; every comparison performed by the client compares
values produced by distinct JSON parses, so that case is modelled as false. -/
def jsStrictEqV : JsValue → JsValue → Bool
  | .null, .null => true
  | .bool a, .bool b => a == b
  | .num a, .num b => a == b
  | .str a, .str b => a == b
  | _, _ => false

/-- Strict equality between two possibly-undefined values. -/
def jsStrictEqO : Option JsValue → Option JsValue → Bool
  | none, none => true
  | some a, some b => jsStrictEqV a b
  | _, _ => false

/-- Property access v.k: defined on objects, undefined on everything else. -/
def getField (v : JsValue) (k : String) : Option JsValue :=
  match v with
  | .obj fields => List.lookup k fields
  | _ => none

/-- Own fields of a value (objects only; other values have no own fields that
the client ever enumerates). -/
def jsFields : JsValue → List (String × JsValue)
  | .obj fields => fields
  | _ => []

/-- JavaScript property assignment on an association list: if the key is
already present, the first binding is updated in place; otherwise the new
binding is appended (insertion order is preserved, as for JS objects). -/
def objSet {β : Type} : List (String × β) → String → β → List (String × β)
  | [], k, v => [(k, v)]
  | (k0, v0) :: rest, k, v =>
    if k0 == k then (k0, v) :: rest else (k0, v0) :: objSet rest k v

/-- JavaScript delete profile[k]: removes the binding from an object, leaves
any other value unchanged. -/
def jsDelete (v : JsValue) (k : String) : JsValue :=
  match v with
  | .obj fields => .obj (fields.filter (fun kv => kv.1 != k))
  | v => v

/-- ToNumber coercion used by the arithmetic comparisons on iat and exp.
none models NaN.  Restricted model: numeric strings are optional-sign decimal
integers; arrays and objects coerce to NaN here (the client never feeds them
to a comparison on the paths the claims cover). -/
def parseDecInt (cs : List Char) : Option Int :=
  match cs with
  | '-' :: rest =>
    if rest.isEmpty || !rest.all Char.isDigit then none
    else some (-(rest.foldl (fun a c => a * 10 + ((c.toNat : Int) - 48)) 0))
  | '+' :: rest =>
    if rest.isEmpty || !rest.all Char.isDigit then none
    else some (rest.foldl (fun a c => a * 10 + ((c.toNat : Int) - 48)) 0)
  | _ =>
    if cs.isEmpty || !cs.all Char.isDigit then none
    else some (cs.foldl (fun a c => a * 10 + ((c.toNat : Int) - 48)) 0)

def jsToNumber : Option JsValue → Option Int
  | none => none
  | some .null => some 0
  | some (.bool b) => some (if b then 1 else 0)
  | some (.num n) => some n
  | some (.str s) =>
    let t := s.trim
    if t.isEmpty then some 0 else parseDecInt t.toList
  | some (.arr _) => none
  | some (.obj _) => none

/-- a - v in JavaScript (NaN propagates). -/
def jsSubNum (a : Int) (v : Option Int) : Option Int := v.map (fun x => a - x)

/-- v > b in JavaScript (false when v is NaN). -/
def jsGtNum (v : Option Int) (b : Int) : Bool :=
  match v with
  | some x => decide (b < x)
  | none => false

/-- v < b in JavaScript (false when v is NaN). -/
def jsLtNum (v : Option Int) (b : Int) : Bool :=
  match v with
  | some x => decide (x < b)
  | none => false

/-
A restricted executable model of JSON.parse (returns none where JSON.parse
throws a SyntaxError).  The subset covers null, booleans, integer numbers,
strings with the standard escapes, arrays and objects; duplicate object keys
keep the position of the first occurrence and the value of the last, as in
JavaScript.  Fractional and exponent number forms are outside the model.
-/

def jsonWsChar (c : Char) : Bool :=
  c == ' ' || c == '\t' || c == '\n' || c == '\r'

def skipWs (cs : List Char) : List Char := cs.dropWhile jsonWsChar

def hexDigitVal (c : Char) : Option Nat :=
  if c.isDigit then some (c.toNat - 48)
  else if 97 ≤ c.toNat ∧ c.toNat ≤ 102 then some (c.toNat - 87)
  else if 65 ≤ c.toNat ∧ c.toNat ≤ 70 then some (c.toNat - 55)
  else none

def parseStringBody : List Char → List Char → Option (String × List Char)
  | [], _ => none
  | '"' :: rest, acc => some (String.mk acc.reverse, rest)
  | '\\' :: 'u' :: h1 :: h2 :: h3 :: h4 :: rest, acc =>
    match hexDigitVal h1, hexDigitVal h2, hexDigitVal h3, hexDigitVal h4 with
    | some a, some b, some d, some e =>
      parseStringBody rest (Char.ofNat (((a * 16 + b) * 16 + d) * 16 + e) :: acc)
    | _, _, _, _ => none
  | '\\' :: e :: rest, acc =>
    match e with
    | '"' => parseStringBody rest ('"' :: acc)
    | '\\' => parseStringBody rest ('\\' :: acc)
    | '/' => parseStringBody rest ('/' :: acc)
    | 'b' => parseStringBody rest ('\x08' :: acc)
    | 'f' => parseStringBody rest ('\x0c' :: acc)
    | 'n' => parseStringBody rest ('\n' :: acc)
    | 'r' => parseStringBody rest ('\r' :: acc)
    | 't' => parseStringBody rest ('\t' :: acc)
    | _ => none
  | c :: rest, acc =>
    if c.toNat < 32 then none else parseStringBody rest (c :: acc)

def parseDigitsNat (cs : List Char) : Option (Nat × List Char) :=
  let ds := cs.takeWhile Char.isDigit
  if ds.isEmpty then none
  else some (ds.foldl (fun a c => a * 10 + (c.toNat - 48)) 0, cs.dropWhile Char.isDigit)

def parseNumberTok (cs : List Char) : Option (JsValue × List Char) :=
  match cs with
  | '-' :: rest => (parseDigitsNat rest).map (fun p => (.num (-(p.1 : Int)), p.2))
  | _ => (parseDigitsNat cs).map (fun p => (.num (p.1 : Int), p.2))

mutual

def parseVal : Nat → List Char → Option (JsValue × List Char)
  | 0, _ => none
  | fuel + 1, cs =>
    match skipWs cs with
    | 'n' :: 'u' :: 'l' :: 'l' :: rest => some (.null, rest)
    | 't' :: 'r' :: 'u' :: 'e' :: rest => some (.bool true, rest)
    | 'f' :: 'a' :: 'l' :: 's' :: 'e' :: rest => some (.bool false, rest)
    | '"' :: rest => (parseStringBody rest []).map (fun p => (.str p.1, p.2))
    | '[' :: rest =>
      match skipWs rest with
      | ']' :: r2 => some (.arr [], r2)
      | r2 => parseItems fuel r2 []
    | '{' :: rest =>
      match skipWs rest with
      | '}' :: r2 => some (.obj [], r2)
      | r2 => parseMembers fuel r2 []
    | cs2 => parseNumberTok cs2

def parseItems : Nat → List Char → List JsValue → Option (JsValue × List Char)
  | 0, _, _ => none
  | fuel + 1, cs, acc =>
    match parseVal fuel cs with
    | none => none
    | some (v, rest) =>
      match skipWs rest with
      | ',' :: r2 => parseItems fuel r2 (acc ++ [v])
      | ']' :: r2 => some (.arr (acc ++ [v]), r2)
      | _ => none

def parseMembers : Nat → List Char → List (String × JsValue) → Option (JsValue × List Char)
  | 0, _, _ => none
  | fuel + 1, cs, acc =>
    match skipWs cs with
    | '"' :: rest =>
      match parseStringBody rest [] with
      | none => none
      | some (k, r1) =>
        match skipWs r1 with
        | ':' :: r2 =>
          match parseVal fuel (skipWs r2) with
          | none => none
          | some (v, r3) =>
            match skipWs r3 with
            | ',' :: r4 => parseMembers fuel r4 (objSet acc k v)
            | '}' :: r4 => some (.obj (objSet acc k v), r4)
            | _ => none
        | _ => none
    | _ => none

end

/-- Model of JSON.parse.  none models a thrown SyntaxError. -/
def jsonParse (s : String) : Option JsValue :=
  match parseVal (2 * s.length + 4) s.toList with
  | some (v, rest) => if (skipWs rest).isEmpty then some v else none
  | none => none

/-
encodeURIComponent, modelled per the ECMAScript specification: characters in
the unescaped set pass through, every other character is UTF-8 encoded and
percent-escaped with uppercase hex digits.
-/

def hexDigitUpper (n : Nat) : Char :=
  if n < 10 then Char.ofNat (48 + n) else Char.ofNat (55 + n)

def pctByte (b : Nat) : String :=
  String.mk ['%', hexDigitUpper (b / 16), hexDigitUpper (b % 16)]

def utf8Bytes (c : Char) : List Nat :=
  let n := c.toNat
  if n < 128 then [n]
  else if n < 2048 then [192 + n / 64, 128 + n % 64]
  else if n < 65536 then [224 + n / 4096, 128 + (n / 64) % 64, 128 + n % 64]
  else [240 + n / 262144, 128 + (n / 4096) % 64, 128 + (n / 64) % 64, 128 + n % 64]

def uriUnescaped (c : Char) : Bool :=
  c.isAlpha || c.isDigit || c == '-' || c == '_' || c == '.' || c == '!' ||
  c == '~' || c == '*' || c == Char.ofNat 39 || c == '(' || c == ')'

def encodeURIComponent (s : String) : String :=
  s.toList.foldl
    (fun acc c =>
      acc ++ (if uriUnescaped c then String.singleton c
              else String.join ((utf8Bytes c).map pctByte)))
    ""

/-
The jsrsasign helpers used by validateAccessTokenAsync: sha256 is an external
capability returning the digest as a lowercase hex string; hextob64u is the
pure encoding hex2b64 followed by the base64url transform, translated from
the jsrsasign base64 code (three hex digits, i.e. twelve bits, per step).
-/

def b64chars : String :=
  "ABCDEFGHIJKLMNOPQRSTUVWXYZabcdefghijklmnopqrstuvwxyz0123456789+/"

def b64charAt (n : Nat) : String :=
  match b64chars.toList.get? n with
  | some c => String.singleton c
  | none => ""

/-- parseInt(s, 16) on a chunk: longest valid hex prefix, none for NaN. -/
def parseIntHexL (cs : List Char) : Option Nat :=
  let ds := cs.takeWhile (fun c => (hexDigitVal c).isSome)
  if ds.isEmpty then none
  else some (ds.foldl (fun a c => a * 16 + ((hexDigitVal c).getD 0)) 0)

/-- One full chunk of hex2b64: twelve bits to two base64 characters.  The NaN
case follows the JavaScript bit operators, where NaN shifts to 0. -/
def hex2b64Chunk (o : Option Nat) : String :=
  match o with
  | none => b64charAt 0 ++ b64charAt 0
  | some c => b64charAt (c / 64) ++ b64charAt (c % 64)

def hex2b64Aux : List Char → String
  | c1 :: c2 :: c3 :: rest => hex2b64Chunk (parseIntHexL [c1, c2, c3]) ++ hex2b64Aux rest
  | [c1] =>
    match parseIntHexL [c1] with
    | none => b64charAt 0
    | some c => b64charAt ((c * 4) % 64)
  | [c1, c2] =>
    match parseIntHexL [c1, c2] with
    | none => b64charAt 0 ++ b64charAt 0
    | some c => b64charAt (c / 4) ++ b64charAt ((c % 4) * 16)
  | [] => ""

def hex2b64 (h : String) : String :=
  let r := hex2b64Aux h.toList
  r ++ String.mk (List.replicate ((4 - r.length % 4) % 4) '=')

def b64tob64u (s : String) : String :=
  String.mk (s.toList.filterMap (fun c =>
    if c == '=' then none
    else if c == '+' then some '-'
    else if c == '/' then some '_'
    else some c))

def hextob64u (h : String) : String := b64tob64u (hex2b64 h)

/-
String.split(/\s+/g), as used by isOidc and isOauth: runs of whitespace are
single separators, with an empty leading (or trailing) element when the
string starts (or ends) with whitespace.
-/

def jsWsChar (c : Char) : Bool :=
  c == ' ' || c == '\t' || c == '\n' || c == '\r' || c == '\x0b' || c == '\x0c'

def collapseWsAux : List Char → Bool → List Char
  | [], _ => []
  | c :: rest, prevWs =>
    if jsWsChar c then
      if prevWs then collapseWsAux rest true else ' ' :: collapseWsAux rest true
    else c :: collapseWsAux rest false

def splitOnSpace : List Char → List Char → List String
  | [], cur => [String.mk cur.reverse]
  | c :: rest, cur =>
    if c == ' ' then String.mk cur.reverse :: splitOnSpace rest []
    else splitOnSpace rest (c :: cur)

def jsSplitWs (s : String) : List String :=
  splitOnSpace (collapseWsAux s.toList false) []

/-
Configuration.  The fields are the settings the client reads; all are
optional, matching a plain JavaScript settings object.  The request-state
store is modelled separately (see Store); metadata and key-set caching are
modelled by passing resolver outcomes as parameters.
-/

structure Settings where
  request_state_key : Option String
  load_user_profile : Option Bool
  filter_protocol_claims : Option Bool
  authority : Option String
  response_type : Option String
  client_id : Option String
  redirect_uri : Option String
  scope : Option String
  prompt : Option String
  display : Option String
  max_age : Option String
  ui_locales : Option String
  id_token_hint : Option String
  login_hint : Option String
  acr_values : Option String
  response_mode : Option String

def settingsNone : Settings :=
  { request_state_key := none, load_user_profile := none,
    filter_protocol_claims := none, authority := none, response_type := none,
    client_id := none, redirect_uri := none, scope := none, prompt := none,
    display := none, max_age := none, ui_locales := none, id_token_hint := none,
    login_hint := none, acr_values := none, response_mode := none }

def wellKnownSuffix : String := ".well-known/openid-configuration"

def startsWithL : List Char → List Char → Bool
  | [], _ => true
  | _ :: _, [] => false
  | p :: ps, c :: cs => p == c && startsWithL ps cs

/-- Boolean substring test on character lists (String.indexOf being >= 0). -/
def occursWithinL (pat : List Char) : List Char → Bool
  | [] => pat.isEmpty
  | c :: cs => startsWithL pat (c :: cs) || occursWithinL pat cs

def normalizeAuthority : Option String → Option String
  | none => none
  | some a =>
    if !a.isEmpty && !(occursWithinL wellKnownSuffix.toList a.toList) then
      some ((if a.endsWith "/" then a else a ++ "/") ++ wellKnownSuffix)
    else some a

/-- The OidcClient constructor defaulting logic (the request-state store and
logging wiring are external and modelled separately). -/
def initSettings (serverSettings : Settings) : Settings :=
  let s1 := { serverSettings with
    request_state_key :=
      if jsTruthyOS serverSettings.request_state_key then serverSettings.request_state_key
      else some "OidcClient.request_state" }
  let s2 := { s1 with
    load_user_profile :=
      match s1.load_user_profile with
      | none => some true
      | v => v }
  let s3 := { s2 with
    filter_protocol_claims :=
      match s2.filter_protocol_claims with
      | none => some true
      | v => v }
  let s4 := { s3 with authority := normalizeAuthority s3.authority }
  { s4 with
    response_type :=
      if jsTruthyOS s4.response_type then s4.response_type
      else some "id_token token" }

/-- Dynamic settings[key] access used by createTokenRequestAsync. -/
def settingsGet (s : Settings) : String → Option String
  | "client_id" => s.client_id
  | "redirect_uri" => s.redirect_uri
  | "response_type" => s.response_type
  | "scope" => s.scope
  | "prompt" => s.prompt
  | "display" => s.display
  | "max_age" => s.max_age
  | "ui_locales" => s.ui_locales
  | "id_token_hint" => s.id_token_hint
  | "login_hint" => s.login_hint
  | "acr_values" => s.acr_values
  | "response_mode" => s.response_mode
  | _ => none

/-- isOidc: split the response type on whitespace, keep the tokens strictly
equal to id_token, and test truthiness of the first one. -/
def isOidc (settings : Settings) : Bool :=
  match settings.response_type with
  | some rt =>
    if !rt.isEmpty then
      jsTruthyOS ((jsSplitWs rt).filter (fun item => item == "id_token")).head?
    else false
  | none => false

/-- isOauth: same as isOidc for the token token. -/
def isOauth (settings : Settings) : Bool :=
  match settings.response_type with
  | some rt =>
    if !rt.isEmpty then
      jsTruthyOS ((jsSplitWs rt).filter (fun item => item == "token")).head?
    else false
  | none => false

/-
The request-state store (a Cookies instance in the source): a keyed map of
serialized strings.  set with no value clears the entry.
-/

abbrev Store := List (String × String)

def storeGet (st : Store) (k : String) : Option String := List.lookup k st

def storeSet (st : Store) (k : String) (v : Option String) : Store :=
  match v with
  | some s => objSet st k s
  | none => st.filter (fun kv => kv.1 != k)

/-- The cookie name: settings.request_state_key, which the constructor always
populates; an undefined key would be coerced to the string undefined. -/
def storeKeyOf (s : Settings) : String :=
  match s.request_state_key with
  | some k => k
  | none => "undefined"

/-
Outcomes of the asynchronous operations.
-/

inductive JsOutcome (α : Type) : Type where
  | ok (a : α) : JsOutcome α
  | err (msg : String) : JsOutcome α
  | thrown (msg : String) : JsOutcome α

def bindJO {α β : Type} : JsOutcome α → (α → JsOutcome β) → JsOutcome β
  | .ok a, f => f a
  | .err m, _ => .err m
  | .thrown m, _ => .thrown m

def mapJO {α β : Type} (f : α → β) : JsOutcome α → JsOutcome β
  | .ok a => .ok (f a)
  | .err m => .err m
  | .thrown m => .thrown m

/-
loadX509SigningKeyAsync, inner getKeyAsync: examines jwks.keys.  Only array
key sets are modelled exactly (a JWKS document always carries an array).
-/

def getKeyAsync (jwks : JsValue) : JsOutcome JsValue :=
  match getField jwks "keys" with
  | some (.arr (key :: _)) =>
    if !(jsStrictEqO (getField key "kty") (some (.str "RSA"))) then
      .err "Signing key not RSA"
    else
      match getField key "x5c" with
      | some (.arr (c :: _)) => .ok c
      | _ => .err "RSA keys empty"
  | _ => .err "Signing keys empty"

/-
validateAccessTokenAsync: at_hash binding check.  sha256hex is the external
SHA-256 capability returning a hex digest string.
-/

/-- Spec-side description of the expected at_hash value: base64url-encode the
left half of the SHA-256 digest of the access token (the digest is carried as
a hex string, so the left half of the hex string is the left half of the
digest bytes). -/
def computeExpectedAtHash (sha256hex : String → String) (access_token : String) : String :=
  hextob64u ((sha256hex access_token).take ((sha256hex access_token).length / 2))

def validateAccessTokenAsync (sha256hex : String → String)
    (id_token_contents : JsValue) (access_token : String) : JsOutcome Unit :=
  if !(jsTruthyOV (getField id_token_contents "at_hash")) then
    .err "No at_hash in id_token"
  else
    let hash := sha256hex access_token
    let left := hash.take (hash.length / 2)
    let left_b64u := hextob64u left
    if !(jsStrictEqO (some (.str left_b64u)) (getField id_token_contents "at_hash")) then
      .err "at_hash failed to validate"
    else .ok ()

/-
validateIdTokenAsync.  The signature collaborator is the verifySignature
capability of the spec: token and certificate to a validity flag plus the
parsed payload.  loadKey and loadMeta are the outcomes of
loadX509SigningKeyAsync and loadMetadataAsync; userProfile is the outcome of
loadUserProfile for a given access token.
-/

structure SigResult : Type where
  valid : Bool
  payload : JsValue

/-- Modelled from the spec: utility.copy from src/lib/utility.js, which is not
in the source tree.  Spec section 4.4 step 6: merge userinfo claims over a
copy of the identity-token claims, userinfo values taking precedence on key
collision; the one-argument form returns a copy of the object. -/
def utilityCopy (source target : JsValue) : JsValue :=
  .obj ((jsFields source).foldl (fun acc kv => objSet acc kv.1 kv.2) (jsFields target))

/-- Modelled from the spec: one-argument utility.copy (plain clone). -/
def utilityCopy1 (source : JsValue) : JsValue := utilityCopy source (.obj [])

def validateIdTokenAsync (settings : Settings) (loadKey : JsOutcome JsValue)
    (verifySig : Option String → JsValue → SigResult)
    (loadMeta : JsOutcome JsValue) (now : Int)
    (userProfile : Option String → JsOutcome JsValue)
    (id_token : Option String) (nonce : Option JsValue)
    (access_token : Option String) : JsOutcome JsValue :=
  bindJO loadKey (fun cert =>
    let sr := verifySig id_token cert
    if sr.valid then
      let c := sr.payload
      if !(jsStrictEqO nonce (getField c "nonce")) then .err "Invalid nonce"
      else
        bindJO loadMeta (fun metadata =>
          if !(jsStrictEqO (getField c "iss") (getField metadata "issuer")) then
            .err "Invalid issuer"
          else if !(jsStrictEqO (getField c "aud") (Option.map JsValue.str settings.client_id)) then
            .err "Invalid audience"
          else
            let diff := jsSubNum now (jsToNumber (getField c "iat"))
            if jsGtNum diff 300 then .err "Token issued too long ago"
            else if jsLtNum (jsToNumber (getField c "exp")) now then .err "Token expired"
            else if jsTruthyOS access_token && jsTruthyOB settings.load_user_profile then
              bindJO (userProfile access_token) (fun profile =>
                if jsTruthyOV (getField profile "statusCode") then .ok (utilityCopy1 c)
                else .ok (utilityCopy profile c))
            else .ok c)
    else .err "JWT failed to validate")

def validateIdTokenAndAccessTokenAsync (settings : Settings) (loadKey : JsOutcome JsValue)
    (verifySig : Option String → JsValue → SigResult)
    (loadMeta : JsOutcome JsValue) (now : Int)
    (userProfile : Option String → JsOutcome JsValue)
    (sha256hex : String → String)
    (id_token : Option String) (nonce : Option JsValue)
    (access_token : Option String) : JsOutcome JsValue :=
  bindJO (validateIdTokenAsync settings loadKey verifySig loadMeta now userProfile
      id_token nonce access_token) (fun c =>
    bindJO (validateAccessTokenAsync sha256hex c (access_token.getD "")) (fun _ => .ok c))

/-
createTokenRequestAsync: authorization URL assembly (the state and nonce
values are produced by the external random generator and passed in; the
request-state record persistence is store plumbing outside the URL claims).
-/

def requiredParams : List String := ["client_id", "redirect_uri", "response_type", "scope"]

def optionalParams : List String :=
  ["prompt", "display", "max_age", "ui_locales", "id_token_hint", "login_hint",
   "acr_values", "response_mode"]

def appendParam (s : Settings) (u : String) (key : String) : String :=
  let value := settingsGet s key
  if jsTruthyOS value then u ++ "&" ++ key ++ "=" ++ encodeURIComponent (value.getD "")
  else u

def createTokenRequestUrl (s : Settings) (authorization_endpoint state nonce : String) : String :=
  let url := authorization_endpoint ++ "?state=" ++ encodeURIComponent state
  let url := if isOidc s then url ++ "&nonce=" ++ encodeURIComponent nonce else url
  let url := requiredParams.foldl (appendParam s) url
  let url := optionalParams.foldl (appendParam s) url
  url

/-- Spec-side presence rule: a parameter is appended exactly when its
configured value is non-empty, percent-encoded. -/
def specParam (key : String) (v : Option String) : String :=
  match v with
  | some s => if s.isEmpty then "" else "&" ++ key ++ "=" ++ encodeURIComponent s
  | none => ""

/-- Spec-side test that the configured response type includes a given token. -/
def responseTypeHasToken (s : Settings) (tok : String) : Bool :=
  match s.response_type with
  | some rt => !rt.isEmpty && (jsSplitWs rt).contains tok
  | none => false

/-- Spec-side authorization URL: state, then nonce when the response type
includes id_token, then the required and optional parameters in the stated
order. -/
def specAuthUrl (s : Settings) (endpoint state nonce : String) : String :=
  endpoint ++ "?state=" ++ encodeURIComponent state ++
  (if responseTypeHasToken s "id_token" then "&nonce=" ++ encodeURIComponent nonce else "") ++
  specParam "client_id" s.client_id ++
  specParam "redirect_uri" s.redirect_uri ++
  specParam "response_type" s.response_type ++
  specParam "scope" s.scope ++
  specParam "prompt" s.prompt ++
  specParam "display" s.display ++
  specParam "max_age" s.max_age ++
  specParam "ui_locales" s.ui_locales ++
  specParam "id_token_hint" s.id_token_hint ++
  specParam "login_hint" s.login_hint ++
  specParam "acr_values" s.acr_values ++
  specParam "response_mode" s.response_mode

/-
processResponseAsync.  The inbound callback result is a bag of query-string
values (strings or absent).  The two validator dependencies are parameters:
they close over the network and crypto collaborators exactly as the prototype
methods close over the client.
-/

structure CallbackResult where
  state : Option String
  error : Option String
  id_token : Option String
  access_token : Option String
  token_type : Option String
  expires_in : Option String
  scope : Option String
  session_state : Option String

structure ProcessResult where
  profile : Option JsValue
  id_token : Option String
  access_token : Option String
  expires_in : Option String
  scope : Option String
  session_state : Option String

abbrev ValidateBoth := Option String → Option JsValue → Option String → JsOutcome JsValue

abbrev ValidateId := Option String → Option JsValue → JsOutcome JsValue

def protocolClaims : List String :=
  ["nonce", "at_hash", "iat", "nbf", "exp", "aud", "iss", "idp"]

/-- Spec-side claim filtering: drop every binding whose key is protocol
reserved. -/
def stripProtocolClaims (pf : List (String × JsValue)) : List (String × JsValue) :=
  pf.filter (fun kv => !(protocolClaims.contains kv.1))

/-- The verification dispatch of processResponseAsync: both flows, identity
flow only, or no verification (claims absent). -/
def processDispatch (vB : ValidateBoth) (vI : ValidateId)
    (request_state : JsValue) (res : CallbackResult) : JsOutcome (Option JsValue) :=
  if jsTruthyOV (getField request_state "oidc") && jsTruthyOV (getField request_state "oauth") then
    mapJO some (vB res.id_token (getField request_state "nonce") res.access_token)
  else if jsTruthyOV (getField request_state "oidc") then
    mapJO some (vI res.id_token (getField request_state "nonce"))
  else .ok none

/-- The validation chain of processResponseAsync after the request state has
been parsed (source lines 377-441); the nested oidc and oauth guard blocks of
the source are flattened into guarded conditions with identical semantics. -/
def processParsedResponse (settings : Settings) (vB : ValidateBoth) (vI : ValidateId)
    (request_state : JsValue) (result : Option CallbackResult) : JsOutcome ProcessResult :=
  if !(jsTruthyOV (getField request_state "state")) then .err "No state loaded"
  else
    match result with
    | none => .err "No OIDC response"
    | some res =>
      if jsTruthyOS res.error then .err (res.error.getD "")
      else if !(jsStrictEqO (res.state.map JsValue.str) (getField request_state "state")) then
        .err "Invalid state"
      else if jsTruthyOV (getField request_state "oidc") && !(jsTruthyOS res.id_token) then
        .err "No identity token"
      else if jsTruthyOV (getField request_state "oidc") &&
          !(jsTruthyOV (getField request_state "nonce")) then
        .err "No nonce loaded"
      else if jsTruthyOV (getField request_state "oauth") && !(jsTruthyOS res.access_token) then
        .err "No access token"
      else if jsTruthyOV (getField request_state "oauth") &&
          (!(jsTruthyOS res.token_type) || !((res.token_type.getD "").toLower == "bearer")) then
        .err "Invalid token type"
      else if jsTruthyOV (getField request_state "oauth") && !(jsTruthyOS res.expires_in) then
        .err "No token expiration"
      else
        bindJO (processDispatch vB vI request_state res) (fun profile =>
          let profile2 :=
            if jsTruthyOV profile && jsTruthyOB settings.filter_protocol_claims then
              profile.map (fun p => List.foldl jsDelete p protocolClaims)
            else profile
          .ok { profile := profile2, id_token := res.id_token,
                access_token := res.access_token, expires_in := res.expires_in,
                scope := res.scope, session_state := res.session_state })

/-- All guard conditions of processParsedResponse that precede the
verification dispatch, bundled: the callback passes every shape check. -/
def callbackChecksPass (request_state : JsValue) (res : CallbackResult) : Bool :=
  jsTruthyOV (getField request_state "state") &&
  !(jsTruthyOS res.error) &&
  jsStrictEqO (res.state.map JsValue.str) (getField request_state "state") &&
  !(jsTruthyOV (getField request_state "oidc") && !(jsTruthyOS res.id_token)) &&
  !(jsTruthyOV (getField request_state "oidc") && !(jsTruthyOV (getField request_state "nonce"))) &&
  !(jsTruthyOV (getField request_state "oauth") && !(jsTruthyOS res.access_token)) &&
  !(jsTruthyOV (getField request_state "oauth") &&
      (!(jsTruthyOS res.token_type) || !((res.token_type.getD "").toLower == "bearer"))) &&
  !(jsTruthyOV (getField request_state "oauth") && !(jsTruthyOS res.expires_in))

/-- The request-state resolution of processResponseAsync (source lines
368-375): truthiness check, JSON.parse (a SyntaxError propagates as a thrown
exception, not as a rejected promise), falsiness check of the parse result. -/
def processStoredResponse (settings : Settings) (vB : ValidateBoth) (vI : ValidateId)
    (request_state : Option String) (result : Option CallbackResult) : JsOutcome ProcessResult :=
  if !(jsTruthyOS request_state) then .err "No request state loaded"
  else
    match jsonParse (request_state.getD "") with
    | none => .thrown "SyntaxError"
    | some v =>
      if !(jsTruthyV v) then .err "No request state loaded"
      else processParsedResponse settings vB vI v result

/-- processResponseAsync: when no truthy explicit request state is supplied,
the stored entry is read and the entry is cleared (set with no value) before
any validation; the function returns the updated store next to the outcome. -/
def processResponseAsync (settings : Settings) (store : Store) (vB : ValidateBoth)
    (vI : ValidateId) (result : Option CallbackResult)
    (requestState : Option String) : Store × JsOutcome ProcessResult :=
  if jsTruthyOS requestState then
    (store, processStoredResponse settings vB vI requestState result)
  else
    (storeSet store (storeKeyOf settings) none,
     processStoredResponse settings vB vI (storeGet store (storeKeyOf settings)) result)

/-
Helper lemmas about association lists, filtering and the split helpers.
-/

theorem lookup_objSet {β : Type} (fs : List (String × β)) (k : String) (v : β) (q : String) :
    List.lookup q (objSet fs k v) = if q = k then some v else List.lookup q fs := by
  induction fs with
  | nil =>
    by_cases hq : q = k
    · simp [objSet, List.lookup, hq]
    · simp [objSet, List.lookup, hq, beq_eq_false_iff_ne.mpr hq]
  | cons kv fs ih =>
    obtain ⟨k0, v0⟩ := kv
    by_cases h0 : k0 = k
    · subst h0
      by_cases hq : q = k0
      · simp [objSet, List.lookup, hq]
      · simp [objSet, List.lookup, hq, beq_eq_false_iff_ne.mpr hq]
    · have hb0 : (k0 == k) = false := beq_eq_false_iff_ne.mpr h0
      by_cases hq : q = k0
      · subst hq
        have hqk : ¬ q = k := h0
        simp [objSet, List.lookup, hb0, hqk]
      · simp [objSet, List.lookup, hb0, beq_eq_false_iff_ne.mpr hq, hq, ih]

theorem lookup_eq_none_of_not_mem {β : Type} (fs : List (String × β)) (k : String)
    (h : k ∉ fs.map Prod.fst) : List.lookup k fs = none := by
  induction fs with
  | nil => simp [List.lookup]
  | cons kv fs ih =>
    obtain ⟨k0, v0⟩ := kv
    simp only [List.map_cons, List.mem_cons, not_or] at h
    simp [List.lookup, beq_eq_false_iff_ne.mpr h.1, ih h.2]

theorem lookup_foldl_objSet {β : Type} (fs : List (String × β)) (k : String) :
    ∀ t : List (String × β), (fs.map Prod.fst).Nodup →
      List.lookup k (fs.foldl (fun acc kv => objSet acc kv.1 kv.2) t) =
        if (List.lookup k fs).isSome then List.lookup k fs else List.lookup k t := by
  induction fs with
  | nil => intro t _; simp [List.lookup]
  | cons kv fs ih =>
    intro t h
    obtain ⟨k0, v0⟩ := kv
    simp only [List.map_cons, List.nodup_cons] at h
    rw [List.foldl_cons, ih (objSet t k0 v0) h.2]
    by_cases hk : k = k0
    · subst hk
      have hnone : List.lookup k fs = none := lookup_eq_none_of_not_mem fs k h.1
      simp [hnone, List.lookup, lookup_objSet]
    · have hcons : List.lookup k ((k0, v0) :: fs) = List.lookup k fs := by
        simp [List.lookup, beq_eq_false_iff_ne.mpr hk]
      rw [hcons, lookup_objSet, if_neg hk]

theorem lookup_filter_key {β : Type} (l : List (String × β)) (p : String → Bool) (k : String) :
    List.lookup k (l.filter (fun kv => p kv.1)) = if p k then List.lookup k l else none := by
  induction l with
  | nil => simp [List.lookup]
  | cons kv l ih =>
    obtain ⟨k0, v0⟩ := kv
    by_cases hp : p k0
    · by_cases hk : k = k0
      · subst hk; simp [List.filter, hp, List.lookup]
      · simp [List.filter, hp, List.lookup, beq_eq_false_iff_ne.mpr hk, hk, ih]
    · by_cases hk : k = k0
      · subst hk
        simp only [Bool.not_eq_true] at hp
        simp [List.filter, hp, List.lookup, ih]
      · simp only [Bool.not_eq_true] at hp
        simp [List.filter, hp, List.lookup, beq_eq_false_iff_ne.mpr hk, hk, ih]

theorem storeGet_storeClear (st : Store) (k : String) :
    storeGet (storeSet st k none) k = none := by
  show List.lookup k (st.filter (fun kv => kv.1 != k)) = none
  have h := lookup_filter_key st (fun x => x != k) k
  simpa using h

theorem foldl_jsDelete_obj (ks : List String) (l : List (String × JsValue)) :
    List.foldl jsDelete (JsValue.obj l) ks =
      .obj (l.filter (fun kv => !(ks.contains kv.1))) := by
  induction ks generalizing l with
  | nil =>
    have hp : (fun kv : String × JsValue => !(List.contains [] kv.1)) = fun _ => true := by
      funext kv; rfl
    simp [hp]
  | cons k0 ks ih =>
    rw [List.foldl_cons]
    have hstep : jsDelete (JsValue.obj l) k0 = .obj (l.filter (fun kv => kv.1 != k0)) := rfl
    rw [hstep, ih]
    congr 1
    rw [List.filter_filter]
    apply List.filter_congr
    intro kv _
    cases hc : ks.contains kv.1 <;> cases he : kv.1 == k0 <;>
      simp only [List.contains_cons, hc, he, bne, Bool.not_true, Bool.not_false,
        Bool.and_true, Bool.and_false, Bool.true_and, Bool.false_and, Bool.or_true,
        Bool.or_false, Bool.true_or, Bool.false_or]

theorem filterHead_truthy (l : List String) (a : String) (ha : a.isEmpty = false) :
    jsTruthyOS ((l.filter (fun item => item == a)).head?) = l.contains a := by
  induction l with
  | nil => simp [jsTruthyOS]
  | cons x xs ih =>
    by_cases hx : x = a
    · subst hx
      simp [List.filter, jsTruthyOS, ha, List.contains_cons]
    · have hx2 : (a == x) = false := beq_eq_false_iff_ne.mpr (fun h => hx h.symm)
      have hx3 : (x == a) = false := beq_eq_false_iff_ne.mpr hx
      rw [show (fun item => item == a) = fun item => item == a from rfl]
      simp only [List.filter, hx3]
      rw [ih, List.contains_cons]
      simp [hx2]

theorem isOidc_eq_hasToken (s : Settings) : isOidc s = responseTypeHasToken s "id_token" := by
  unfold isOidc responseTypeHasToken
  cases s.response_type with
  | none => rfl
  | some rt =>
    by_cases hrt : rt.isEmpty
    · simp [hrt]
    · simp only [eq_self_iff_true, hrt, Bool.not_false, if_true, Bool.true_and]
      exact filterHead_truthy (jsSplitWs rt) "id_token" rfl

theorem isOauth_eq_hasToken (s : Settings) : isOauth s = responseTypeHasToken s "token" := by
  unfold isOauth responseTypeHasToken
  cases s.response_type with
  | none => rfl
  | some rt =>
    by_cases hrt : rt.isEmpty
    · simp [hrt]
    · simp only [eq_self_iff_true, hrt, Bool.not_false, if_true, Bool.true_and]
      exact filterHead_truthy (jsSplitWs rt) "token" rfl

theorem appendParam_eq (s : Settings) (u : String) (key : String) :
    appendParam s u key = u ++ specParam key (settingsGet s key) := by
  unfold appendParam specParam
  cases h : settingsGet s key with
  | none => simp [jsTruthyOS, String.append_empty]
  | some v =>
    by_cases hv : v.isEmpty
    · simp [jsTruthyOS, hv, String.append_empty]
    · simp [jsTruthyOS, hv, Option.getD, String.append_assoc]

theorem jsStrictEqO_str_iff (s : String) (w : Option JsValue) :
    jsStrictEqO (some (.str s)) w = true ↔ w = some (.str s) := by
  cases w with
  | none => simp [jsStrictEqO]
  | some v =>
    cases v with
    | null => simp [jsStrictEqO, jsStrictEqV]
    | bool b => simp [jsStrictEqO, jsStrictEqV]
    | num n => simp [jsStrictEqO, jsStrictEqV]
    | str t =>
      simp only [jsStrictEqO, jsStrictEqV, beq_iff_eq, Option.some.injEq, JsValue.str.injEq]
      exact eq_comm
    | arr xs => simp [jsStrictEqO, jsStrictEqV]
    | obj fs => simp [jsStrictEqO, jsStrictEqV]

/-- Claim C1: with the resolved request state carrying a (truthy) state value,
a non-null callback result and no error field, any callback state that is not
strictly equal to the stored state makes processResponse fail with
StateMismatch (Invalid state), whatever the other result fields hold. -/
theorem processResponse_stateMismatch (settings : Settings) (vB : ValidateBoth)
    (vI : ValidateId) (request_state : JsValue) (res : CallbackResult)
    (hstate : jsTruthyOV (getField request_state "state") = true)
    (herr : jsTruthyOS res.error = false)
    (hmismatch : jsStrictEqO (res.state.map JsValue.str) (getField request_state "state") = false) :
    processParsedResponse settings vB vI request_state (some res) = .err "Invalid state" := by
  simp [processParsedResponse, hstate, herr, hmismatch]

theorem processResponse_stateMismatch_witness :
    processParsedResponse (initSettings settingsNone)
      (fun _ _ _ => JsOutcome.ok JsValue.null) (fun _ _ => JsOutcome.ok JsValue.null)
      (JsValue.obj [("state", JsValue.str "abc"), ("oidc", JsValue.bool true),
                    ("nonce", JsValue.str "n")])
      (some { state := some "xyz", error := none, id_token := some "jwt",
              access_token := some "at", token_type := some "Bearer",
              expires_in := some "3600", scope := some "openid",
              session_state := some "ss" }) = .err "Invalid state" :=
  processResponse_stateMismatch _ _ _ _ _ rfl rfl rfl

/-- Claim C2: a processResponse call without an explicit request state reads
the stored entry and clears it unconditionally (before any validation, so for
every callback result and whatever the outcome), and a second such call then
fails with MissingRequestState (No request state loaded). -/
theorem processResponse_singleUse (settings : Settings) (store : Store) (vB : ValidateBoth)
    (vI : ValidateId) (res1 res2 : Option CallbackResult) :
    storeGet (processResponseAsync settings store vB vI res1 none).1 (storeKeyOf settings) = none ∧
    (processResponseAsync settings
        (processResponseAsync settings store vB vI res1 none).1 vB vI res2 none).2 =
      .err "No request state loaded" := by
  have h1 : (processResponseAsync settings store vB vI res1 none).1 =
      storeSet store (storeKeyOf settings) none := by
    simp [processResponseAsync, jsTruthyOS]
  constructor
  · rw [h1]; exact storeGet_storeClear store (storeKeyOf settings)
  · rw [h1]
    simp [processResponseAsync, processStoredResponse, jsTruthyOS, storeGet_storeClear]

/-- Claim C6 (code bug): a stored request state that is present but not
parsable as JSON makes processResponse propagate a thrown SyntaxError from
JSON.parse; it does not fail with MissingRequestState (No request state
loaded), which only covers the absent and falsy-parse cases. -/
theorem processResponse_unparsableState_throws :
    (processResponseAsync (initSettings settingsNone)
        [("OidcClient.request_state", "\x7b")]
        (fun _ _ _ => JsOutcome.ok JsValue.null) (fun _ _ => JsOutcome.ok JsValue.null)
        (some { state := some "s", error := none, id_token := none, access_token := none,
                token_type := none, expires_in := none, scope := none, session_state := none })
        none).2 = .thrown "SyntaxError" ∧
    (processResponseAsync (initSettings settingsNone)
        [("OidcClient.request_state", "\x7b")]
        (fun _ _ _ => JsOutcome.ok JsValue.null) (fun _ _ => JsOutcome.ok JsValue.null)
        (some { state := some "s", error := none, id_token := none, access_token := none,
                token_type := none, expires_in := none, scope := none, session_state := none })
        none).2 ≠ JsOutcome.err "No request state loaded" := by
  refine ⟨rfl, ?_⟩
  intro hc
  rw [show (processResponseAsync (initSettings settingsNone)
        [("OidcClient.request_state", "\x7b")]
        (fun _ _ _ => JsOutcome.ok JsValue.null) (fun _ _ => JsOutcome.ok JsValue.null)
        (some { state := some "s", error := none, id_token := none, access_token := none,
                token_type := none, expires_in := none, scope := none, session_state := none })
        none).2 = JsOutcome.thrown "SyntaxError" from rfl] at hc
  exact JsOutcome.noConfusion hc

/-- Claim C5 (counterexample): for a key set whose first key is non-RSA and
whose second key is RSA with a non-empty certificate chain, resolution fails
with UnsupportedKeyType (Signing key not RSA) and does not return the later
certificate. -/
theorem signingKey_scan_counterexample :
    getKeyAsync (JsValue.obj [("keys", JsValue.arr
        [JsValue.obj [("kty", JsValue.str "EC")],
         JsValue.obj [("kty", JsValue.str "RSA"),
                      ("x5c", JsValue.arr [JsValue.str "cert2"])]])]) =
      .err "Signing key not RSA" ∧
    getKeyAsync (JsValue.obj [("keys", JsValue.arr
        [JsValue.obj [("kty", JsValue.str "EC")],
         JsValue.obj [("kty", JsValue.str "RSA"),
                      ("x5c", JsValue.arr [JsValue.str "cert2"])]])]) ≠
      JsOutcome.ok (JsValue.str "cert2") := by
  refine ⟨rfl, ?_⟩
  intro hc
  rw [show getKeyAsync (JsValue.obj [("keys", JsValue.arr
        [JsValue.obj [("kty", JsValue.str "EC")],
         JsValue.obj [("kty", JsValue.str "RSA"),
                      ("x5c", JsValue.arr [JsValue.str "cert2"])]])]) =
      JsOutcome.err "Signing key not RSA" from rfl] at hc
  exact JsOutcome.noConfusion hc

/-- Claim C5 (amended): key resolution examines only the first key of the key
set: when the first key is not RSA it fails with UnsupportedKeyType no matter
what the later keys are, and when the first key is RSA with a non-empty
certificate chain it returns that first certificate. -/
theorem signingKey_firstKeyOnly (jwks k : JsValue) (ks : List JsValue)
    (hkeys : getField jwks "keys" = some (.arr (k :: ks))) :
    (jsStrictEqO (getField k "kty") (some (.str "RSA")) = false →
      getKeyAsync jwks = .err "Signing key not RSA") ∧
    (∀ c : JsValue, ∀ cs : List JsValue,
      jsStrictEqO (getField k "kty") (some (.str "RSA")) = true →
      getField k "x5c" = some (.arr (c :: cs)) →
      getKeyAsync jwks = .ok c) := by
  constructor
  · intro h
    simp [getKeyAsync, hkeys, h]
  · intro c cs h hx
    simp [getKeyAsync, hkeys, h, hx]

theorem signingKey_firstKeyOnly_witness :
    getKeyAsync (JsValue.obj [("keys", JsValue.arr
        [JsValue.obj [("kty", JsValue.str "oct")], JsValue.obj []])]) =
      .err "Signing key not RSA" :=
  (signingKey_firstKeyOnly
    (JsValue.obj [("keys", JsValue.arr
        [JsValue.obj [("kty", JsValue.str "oct")], JsValue.obj []])])
    (JsValue.obj [("kty", JsValue.str "oct")]) [JsValue.obj []] rfl).1 rfl

/-- Claim C4: access-token binding fails with MissingAtHash (No at_hash in
id_token) when claims.at_hash is absent (JS-falsy); otherwise it succeeds
exactly when the base64url encoding of the left half of the SHA-256 digest of
the access token equals claims.at_hash, and fails with AtHashMismatch
(at_hash failed to validate) otherwise. -/
theorem validateAccessToken_atHash (sha256hex : String → String) (c : JsValue) (tok : String) :
    (jsTruthyOV (getField c "at_hash") = false →
      validateAccessTokenAsync sha256hex c tok = .err "No at_hash in id_token") ∧
    (jsTruthyOV (getField c "at_hash") = true →
      ((validateAccessTokenAsync sha256hex c tok = .ok () ↔
          getField c "at_hash" = some (.str (computeExpectedAtHash sha256hex tok))) ∧
        (getField c "at_hash" ≠ some (.str (computeExpectedAtHash sha256hex tok)) →
          validateAccessTokenAsync sha256hex c tok = .err "at_hash failed to validate"))) := by
  constructor
  · intro h
    simp [validateAccessTokenAsync, h]
  · intro h
    have hval : validateAccessTokenAsync sha256hex c tok =
        (if jsStrictEqO (some (.str (computeExpectedAtHash sha256hex tok)))
              (getField c "at_hash") = true
         then .ok () else .err "at_hash failed to validate") := by
      simp only [validateAccessTokenAsync, h, Bool.not_true, Bool.false_eq_true, if_false,
        computeExpectedAtHash]
      by_cases hs : jsStrictEqO
          (some (.str (hextob64u ((sha256hex tok).take ((sha256hex tok).length / 2)))))
          (getField c "at_hash") = true
      · simp [hs]
      · simp only [Bool.not_eq_true] at hs
        simp [hs]
    rw [hval]
    constructor
    · by_cases hs : jsStrictEqO (some (.str (computeExpectedAtHash sha256hex tok)))
          (getField c "at_hash") = true
      · have heq := (jsStrictEqO_str_iff _ _).mp hs
        simp [hs, heq, jsStrictEqO, jsStrictEqV]
      · simp only [Bool.not_eq_true] at hs
        constructor
        · intro hcontr
          rw [hs] at hcontr
          simp at hcontr
        · intro heq
          have : jsStrictEqO (some (.str (computeExpectedAtHash sha256hex tok)))
              (getField c "at_hash") = true := (jsStrictEqO_str_iff _ _).mpr heq
          rw [this] at hs
          simp at hs
    · intro hne
      have hs : jsStrictEqO (some (.str (computeExpectedAtHash sha256hex tok)))
          (getField c "at_hash") = false := by
        by_cases hs2 : jsStrictEqO (some (.str (computeExpectedAtHash sha256hex tok)))
            (getField c "at_hash") = true
        · exact absurd ((jsStrictEqO_str_iff _ _).mp hs2) hne
        · simpa using hs2
      simp [hs]

theorem validateAccessToken_atHash_witness :
    validateAccessTokenAsync (fun _ => "0123456789abcdef")
      (JsValue.obj [("at_hash",
        JsValue.str (computeExpectedAtHash (fun _ => "0123456789abcdef") "tok"))])
      "tok" = .ok () :=
  ((validateAccessToken_atHash (fun _ => "0123456789abcdef")
      (JsValue.obj [("at_hash",
        JsValue.str (computeExpectedAtHash (fun _ => "0123456789abcdef") "tok"))])
      "tok").2 rfl).1.mpr rfl

/-- Claim C3: with signature, nonce, issuer and audience checks passing and
numeric iat and exp claims, verification rejects with TokenTooOld (Token
issued too long ago) exactly when now - iat > 300; when the staleness window
is respected it rejects with TokenExpired (Token expired) exactly when
exp < now, and accepts when additionally now <= exp (boundaries: iat =
now - 300 and exp = now are accepted, iat = now - 301 and exp = now - 1 are
rejected). -/
theorem validateIdToken_timeWindow
    (settings : Settings) (cert metadata c : JsValue)
    (verifySig : Option String → JsValue → SigResult)
    (userProfile : Option String → JsOutcome JsValue)
    (id_token : Option String) (nonce : Option JsValue)
    (iat expv now : Int)
    (hsig : verifySig id_token cert = { valid := true, payload := c })
    (hnonce : jsStrictEqO nonce (getField c "nonce") = true)
    (hiss : jsStrictEqO (getField c "iss") (getField metadata "issuer") = true)
    (haud : jsStrictEqO (getField c "aud") (Option.map JsValue.str settings.client_id) = true)
    (hiat : getField c "iat" = some (.num iat))
    (hexp : getField c "exp" = some (.num expv)) :
    (validateIdTokenAsync settings (.ok cert) verifySig (.ok metadata) now userProfile
        id_token nonce none = .err "Token issued too long ago" ↔ now - iat > 300) ∧
    (now - iat ≤ 300 →
      (validateIdTokenAsync settings (.ok cert) verifySig (.ok metadata) now userProfile
          id_token nonce none = .err "Token expired" ↔ expv < now)) ∧
    (now - iat ≤ 300 → now ≤ expv →
      validateIdTokenAsync settings (.ok cert) verifySig (.ok metadata) now userProfile
          id_token nonce none = .ok c) := by
  have hcore : validateIdTokenAsync settings (.ok cert) verifySig (.ok metadata) now userProfile
      id_token nonce none =
      (if now - iat > 300 then .err "Token issued too long ago"
       else if expv < now then .err "Token expired" else .ok c) := by
    simp only [validateIdTokenAsync, bindJO, hsig, hnonce, hiss, haud, hiat, hexp]
    simp [jsToNumber, jsSubNum, jsGtNum, jsLtNum, jsTruthyOS, gt_iff_lt]
  rw [hcore]
  refine ⟨?_, ?_, ?_⟩
  · by_cases h1 : now - iat > 300
    · simp [h1]
    · by_cases h2 : expv < now <;> simp [h1, h2]
  · intro hle
    have h1 : ¬ (now - iat > 300) := by omega
    by_cases h2 : expv < now <;> simp [h1, h2]
  · intro hle hexp2
    have h1 : ¬ (now - iat > 300) := by omega
    have h2 : ¬ (expv < now) := by omega
    simp [h1, h2]

theorem validateIdToken_timeWindow_witness :
    validateIdTokenAsync { settingsNone with client_id := some "client" }
      (.ok (JsValue.str "CERT"))
      (fun _ _ => SigResult.mk true
        (JsValue.obj [("nonce", JsValue.str "n"), ("iss", JsValue.str "issuer1"),
          ("aud", JsValue.str "client"), ("iat", JsValue.num 700),
          ("exp", JsValue.num 1000)]))
      (.ok (JsValue.obj [("issuer", JsValue.str "issuer1")])) 1000
      (fun _ => JsOutcome.ok JsValue.null)
      (some "tok") (some (JsValue.str "n")) none =
      .ok (JsValue.obj [("nonce", JsValue.str "n"), ("iss", JsValue.str "issuer1"),
        ("aud", JsValue.str "client"), ("iat", JsValue.num 700),
        ("exp", JsValue.num 1000)]) :=
  (validateIdToken_timeWindow { settingsNone with client_id := some "client" }
      (JsValue.str "CERT")
      (JsValue.obj [("issuer", JsValue.str "issuer1")])
      (JsValue.obj [("nonce", JsValue.str "n"), ("iss", JsValue.str "issuer1"),
        ("aud", JsValue.str "client"), ("iat", JsValue.num 700), ("exp", JsValue.num 1000)])
      (fun _ _ => SigResult.mk true
        (JsValue.obj [("nonce", JsValue.str "n"), ("iss", JsValue.str "issuer1"),
          ("aud", JsValue.str "client"), ("iat", JsValue.num 700),
          ("exp", JsValue.num 1000)]))
      (fun _ => JsOutcome.ok JsValue.null)
      (some "tok") (some (JsValue.str "n")) 700 1000 1000
      rfl rfl rfl rfl rfl rfl).2.2 (by omega) (by omega)

/-- Claim C9: with an access token supplied and profile loading enabled, a
userinfo result that is HTTP-response shaped (truthy statusCode field) is
discarded and verification succeeds with a copy of the identity-token claims
alone (no transport error is surfaced); a userinfo result that is a claims
object is merged over a copy of the identity-token claims with userinfo
values taking precedence on key collision. -/
theorem validateIdToken_userinfoMerge
    (settings : Settings) (cert metadata : JsValue)
    (verifySig : Option String → JsValue → SigResult)
    (userProfile : Option String → JsOutcome JsValue)
    (id_token : Option String) (nonce : Option JsValue) (access_token : Option String)
    (cf pf : List (String × JsValue)) (now : Int)
    (hsig : verifySig id_token cert = { valid := true, payload := .obj cf })
    (hnonce : jsStrictEqO nonce (getField (.obj cf) "nonce") = true)
    (hiss : jsStrictEqO (getField (.obj cf) "iss") (getField metadata "issuer") = true)
    (haud : jsStrictEqO (getField (.obj cf) "aud")
      (Option.map JsValue.str settings.client_id) = true)
    (hiat : jsGtNum (jsSubNum now (jsToNumber (getField (.obj cf) "iat"))) 300 = false)
    (hexp : jsLtNum (jsToNumber (getField (.obj cf) "exp")) now = false)
    (hat : jsTruthyOS access_token = true)
    (hlup : jsTruthyOB settings.load_user_profile = true)
    (hprofile : userProfile access_token = .ok (.obj pf))
    (hnodupc : (cf.map Prod.fst).Nodup) (hnoduppf : (pf.map Prod.fst).Nodup) :
    (jsTruthyOV (getField (.obj pf) "statusCode") = true →
      validateIdTokenAsync settings (.ok cert) verifySig (.ok metadata) now userProfile
          id_token nonce access_token = .ok (utilityCopy1 (.obj cf)) ∧
      ∀ q : String, getField (utilityCopy1 (.obj cf)) q = getField (.obj cf) q) ∧
    (jsTruthyOV (getField (.obj pf) "statusCode") = false →
      validateIdTokenAsync settings (.ok cert) verifySig (.ok metadata) now userProfile
          id_token nonce access_token = .ok (utilityCopy (.obj pf) (.obj cf)) ∧
      ∀ q : String, getField (utilityCopy (.obj pf) (.obj cf)) q =
        (if (getField (.obj pf) q).isSome then getField (.obj pf) q
         else getField (.obj cf) q)) := by
  have hcore : validateIdTokenAsync settings (.ok cert) verifySig (.ok metadata) now userProfile
      id_token nonce access_token =
      (if jsTruthyOV (getField (.obj pf) "statusCode") then .ok (utilityCopy1 (.obj cf))
       else .ok (utilityCopy (.obj pf) (.obj cf))) := by
    simp only [validateIdTokenAsync, bindJO, hsig, hnonce, hiss, haud, hiat, hexp, hat,
      hlup, hprofile]
    simp
  constructor
  · intro hsc
    refine ⟨by rw [hcore]; simp [hsc], ?_⟩
    intro q
    show List.lookup q (cf.foldl (fun acc kv => objSet acc kv.1 kv.2) []) = List.lookup q cf
    rw [lookup_foldl_objSet cf q [] hnodupc]
    cases h : List.lookup q cf <;> simp [h, List.lookup]
  · intro hsc
    refine ⟨by rw [hcore]; simp [hsc], ?_⟩
    intro q
    show List.lookup q (pf.foldl (fun acc kv => objSet acc kv.1 kv.2) cf) =
      (if (List.lookup q pf).isSome then List.lookup q pf else List.lookup q cf)
    exact lookup_foldl_objSet pf q cf hnoduppf

theorem validateIdToken_userinfoMerge_witness :
    validateIdTokenAsync
      { settingsNone with client_id := some "client", load_user_profile := some true }
      (.ok (JsValue.str "CERT"))
      (fun _ _ => SigResult.mk true
        (JsValue.obj [("nonce", JsValue.str "n"), ("iss", JsValue.str "issuer1"),
          ("aud", JsValue.str "client"), ("iat", JsValue.num 700),
          ("exp", JsValue.num 1000), ("sub", JsValue.str "alice")]))
      (.ok (JsValue.obj [("issuer", JsValue.str "issuer1")])) 1000
      (fun _ => JsOutcome.ok (JsValue.obj [("name", JsValue.str "Alice"),
        ("sub", JsValue.str "alice2")]))
      (some "tok") (some (JsValue.str "n")) (some "at") =
      .ok (utilityCopy
        (JsValue.obj [("name", JsValue.str "Alice"), ("sub", JsValue.str "alice2")])
        (JsValue.obj [("nonce", JsValue.str "n"), ("iss", JsValue.str "issuer1"),
          ("aud", JsValue.str "client"), ("iat", JsValue.num 700),
          ("exp", JsValue.num 1000), ("sub", JsValue.str "alice")])) :=
  ((validateIdToken_userinfoMerge
      { settingsNone with client_id := some "client", load_user_profile := some true }
      (JsValue.str "CERT")
      (JsValue.obj [("issuer", JsValue.str "issuer1")])
      (fun _ _ => SigResult.mk true
        (JsValue.obj [("nonce", JsValue.str "n"), ("iss", JsValue.str "issuer1"),
          ("aud", JsValue.str "client"), ("iat", JsValue.num 700),
          ("exp", JsValue.num 1000), ("sub", JsValue.str "alice")]))
      (fun _ => JsOutcome.ok (JsValue.obj [("name", JsValue.str "Alice"),
        ("sub", JsValue.str "alice2")]))
      (some "tok") (some (JsValue.str "n")) (some "at")
      [("nonce", JsValue.str "n"), ("iss", JsValue.str "issuer1"),
       ("aud", JsValue.str "client"), ("iat", JsValue.num 700),
       ("exp", JsValue.num 1000), ("sub", JsValue.str "alice")]
      [("name", JsValue.str "Alice"), ("sub", JsValue.str "alice2")]
      1000 rfl rfl rfl rfl rfl rfl rfl rfl rfl (by decide) (by decide)).2 rfl).1

/-- Claim C7: when the callback shape checks pass, claim filtering is enabled
and verification yields a claims object, the returned session carries the
profile with every protocol claim key (nonce, at_hash, iat, nbf, exp, aud,
iss, idp) removed and every other claim key preserved, next to the raw token
fields of the callback result. -/
theorem processResponse_filterProtocolClaims (settings : Settings) (vB : ValidateBoth)
    (vI : ValidateId) (request_state : JsValue) (res : CallbackResult)
    (pf : List (String × JsValue))
    (hchecks : callbackChecksPass request_state res = true)
    (hfilter : jsTruthyOB settings.filter_protocol_claims = true)
    (hdisp : processDispatch vB vI request_state res = .ok (some (.obj pf))) :
    processParsedResponse settings vB vI request_state (some res) =
      .ok { profile := some (.obj (stripProtocolClaims pf)), id_token := res.id_token,
            access_token := res.access_token, expires_in := res.expires_in,
            scope := res.scope, session_state := res.session_state } ∧
    (∀ q : String, q ∈ protocolClaims → List.lookup q (stripProtocolClaims pf) = none) ∧
    (∀ q : String, q ∉ protocolClaims → List.lookup q (stripProtocolClaims pf) =
      List.lookup q pf) := by
  simp only [callbackChecksPass] at hchecks
  repeat rw [Bool.and_eq_true] at hchecks
  obtain ⟨⟨⟨⟨⟨⟨⟨h1, h2⟩, h3⟩, h4⟩, h5⟩, h6⟩, h7⟩, h8⟩ := hchecks
  rw [Bool.not_eq_true'] at h2 h4 h5 h6 h7 h8
  refine ⟨?_, ?_, ?_⟩
  · simp only [processParsedResponse, h1, h2, h3, h4, h5, h6, h7, h8, hdisp, bindJO,
      Bool.not_true, Bool.not_false]
    simp only [if_false, if_true, Bool.false_eq_true, Bool.true_eq_false]
    have hfold : List.foldl jsDelete (JsValue.obj pf) protocolClaims =
        .obj (stripProtocolClaims pf) :=
      foldl_jsDelete_obj protocolClaims pf
    simp [jsTruthyOV, jsTruthyV, hfilter, hfold]
  · intro q hq
    show List.lookup q (pf.filter (fun kv => !(protocolClaims.contains kv.1))) = none
    rw [lookup_filter_key pf (fun x => !(protocolClaims.contains x)) q]
    have hb : (!(protocolClaims.contains q)) = false := by simpa using hq
    simp only [hb, Bool.false_eq_true, if_false]
  · intro q hq
    show List.lookup q (pf.filter (fun kv => !(protocolClaims.contains kv.1))) =
      List.lookup q pf
    rw [lookup_filter_key pf (fun x => !(protocolClaims.contains x)) q]
    have hb : (!(protocolClaims.contains q)) = true := by simpa using hq
    simp only [hb, if_true]

theorem processResponse_filterProtocolClaims_witness :
    processParsedResponse (initSettings settingsNone)
      (fun _ _ _ => JsOutcome.ok JsValue.null)
      (fun _ _ => JsOutcome.ok (JsValue.obj [("sub", JsValue.str "alice"),
        ("nonce", JsValue.str "n"), ("exp", JsValue.num 1000)]))
      (JsValue.obj [("state", JsValue.str "abc"), ("oidc", JsValue.bool true),
                    ("nonce", JsValue.str "n")])
      (some { state := some "abc", error := none, id_token := some "jwt",
              access_token := none, token_type := none, expires_in := none,
              scope := some "openid", session_state := some "ss" }) =
      .ok { profile := some (.obj (stripProtocolClaims [("sub", JsValue.str "alice"),
              ("nonce", JsValue.str "n"), ("exp", JsValue.num 1000)])),
            id_token := some "jwt", access_token := none, expires_in := none,
            scope := some "openid", session_state := some "ss" } :=
  (processResponse_filterProtocolClaims (initSettings settingsNone)
      (fun _ _ _ => JsOutcome.ok JsValue.null)
      (fun _ _ => JsOutcome.ok (JsValue.obj [("sub", JsValue.str "alice"),
        ("nonce", JsValue.str "n"), ("exp", JsValue.num 1000)]))
      (JsValue.obj [("state", JsValue.str "abc"), ("oidc", JsValue.bool true),
                    ("nonce", JsValue.str "n")])
      { state := some "abc", error := none, id_token := some "jwt",
        access_token := none, token_type := none, expires_in := none,
        scope := some "openid", session_state := some "ss" }
      [("sub", JsValue.str "alice"), ("nonce", JsValue.str "n"), ("exp", JsValue.num 1000)]
      rfl rfl rfl).1

/-- Claim C10: the constructor defaults a missing (falsy) response_type to
id_token token, so a default-configured client has both isOidc and isOauth
set (hybrid flow); the flags test for the exact whitespace-separated tokens
id_token and token, so a response type of id_token2 satisfies neither. -/
theorem oidcClient_responseTypeFlags (s s2 : Settings)
    (h : jsTruthyOS s.response_type = false)
    (h2 : s2.response_type = some "id_token2") :
    (initSettings s).response_type = some "id_token token" ∧
    isOidc (initSettings s) = true ∧ isOauth (initSettings s) = true ∧
    isOidc s2 = false ∧ isOauth s2 = false ∧
    (∀ s3 : Settings, isOidc s3 = responseTypeHasToken s3 "id_token" ∧
      isOauth s3 = responseTypeHasToken s3 "token") := by
  have hrt : (initSettings s).response_type = some "id_token token" := by
    simp [initSettings, h]
  refine ⟨hrt, ?_, ?_, ?_, ?_, fun s3 => ⟨isOidc_eq_hasToken s3, isOauth_eq_hasToken s3⟩⟩
  · rw [isOidc_eq_hasToken]
    simp only [responseTypeHasToken, hrt]
    rfl
  · rw [isOauth_eq_hasToken]
    simp only [responseTypeHasToken, hrt]
    rfl
  · simp only [isOidc, h2]
    rfl
  · simp only [isOauth, h2]
    rfl

theorem oidcClient_responseTypeFlags_witness :
    (initSettings settingsNone).response_type = some "id_token token" ∧
    isOidc (initSettings settingsNone) = true ∧
    isOauth (initSettings settingsNone) = true ∧
    isOidc { settingsNone with response_type := some "id_token2" } = false ∧
    isOauth { settingsNone with response_type := some "id_token2" } = false := by
  have h := oidcClient_responseTypeFlags settingsNone
    { settingsNone with response_type := some "id_token2" } rfl rfl
  exact ⟨h.1, h.2.1, h.2.2.1, h.2.2.2.1, h.2.2.2.2.1⟩

/-- Claim C8: the authorization URL appends the query parameters in exactly
the order state, nonce (present exactly when the response type includes the
token id_token), client_id, redirect_uri, response_type, scope, prompt,
display, max_age, ui_locales, id_token_hint, login_hint, acr_values,
response_mode, each of the latter twelve present exactly when its configured
value is non-empty and every value percent-encoded. -/
theorem createTokenRequest_url_order (s : Settings) (endpoint state nonce : String) :
    createTokenRequestUrl s endpoint state nonce = specAuthUrl s endpoint state nonce := by
  unfold createTokenRequestUrl specAuthUrl
  rw [isOidc_eq_hasToken]
  simp only [requiredParams, optionalParams, List.foldl_cons, List.foldl_nil, appendParam_eq]
  simp only [settingsGet]
  cases htok : responseTypeHasToken s "id_token"
  · simp [String.append_assoc, String.append_empty, String.empty_append]
  · simp [String.append_assoc]
